import Mathlib

/-!
Shallow embedding of `src/core/framework/llm/mock.py`, restricted to the
streaming engine: the `stream` method of `MockLLMProvider`, its call ledger
`stream_calls`, its scenario cycling index `_call_index`, the word-splitting
fallback branch, and the scenario helper builders.  The event classes live in
`framework/llm/stream_events`, a module that is not among the sources, so the
event vocabulary is modelled from the spec (section 3).

Python's `stream` is an async generator: calling it only creates the generator
object, and the body (ledger append, index advance, event yields) runs when the
caller first advances the generator.  `MockLLMProvider.stream` below embeds one
full run of the body (entered at least once and driven to completion), and
`MockLLMProvider.stream_consume` embeds the generator protocol: a caller that
requests `k` events runs no code at all for `k = 0`, and for `k ≥ 1` runs the
entry mutations (which all precede the first `yield`) and receives at most `k`
events.
-/

/-- Modelled from the spec: the event vocabulary of `framework/llm/stream_events`
(a module absent from the sources).  Field names follow the spec, section 3; the
auxiliary events `ToolResultEvent`, `ReasoningStartEvent` and
`ReasoningDeltaEvent` carry an opaque payload, as the spec leaves their fields
unspecified ("structurally analogous auxiliary events").  `FinishEvent` token
counts default to 0 when a construction site omits them, matching the token
accounting of the mock provider. -/
inductive StreamEvent where
  | textDelta (content : String) (snapshot : String)
  | textEnd (full_text : String)
  | toolCall (tool_use_id : String) (tool_name : String) (tool_input : List (String × String))
  | toolResult (payload : String)
  | reasoningStart (payload : String)
  | reasoningDelta (payload : String)
  | finish (stop_reason : String) (model : String) (input_tokens : Nat) (output_tokens : Nat)
  | streamError (error : String) (recoverable : Bool)
deriving DecidableEq

/-- A conversation message, a `dict[str, Any]` in the source; modelled as a
list of string key/value pairs, opaque to the engine. -/
abbrev Message := List (String × String)

/-- Modelled from the spec: a `Tool` (from the absent `framework/llm/provider`)
is opaque data, passed through and recorded but never inspected by `stream`. -/
abbrev Tool := String

/-- One entry of `self.stream_calls`:
`{"messages": messages, "system": system, "tools": tools}` (mock.py line 215). -/
structure StreamCall where
  messages : List Message
  system : String
  tools : Option (List Tool)
deriving DecidableEq

/-- The mutable state of a `MockLLMProvider` instance as far as `stream` is
concerned: `model`, `scenarios`, `_call_index` and `stream_calls`
(mock.py lines 52-55); `_call_index` is written `call_index` here. -/
structure MockLLMProvider where
  model : String
  scenarios : List (List StreamEvent)
  call_index : Nat
  stream_calls : List StreamCall
deriving DecidableEq

/-- `MockLLMProvider.__init__` (mock.py lines 37-55): `scenarios or []`,
`_call_index = 0`, `stream_calls = []`. -/
def MockLLMProvider.init (model : String) (scenarios : Option (List (List StreamEvent))) :
    MockLLMProvider :=
  { model := model, scenarios := scenarios.getD [], call_index := 0, stream_calls := [] }

/-- Python `str.split(" ")` on the character list: splits at every single
space, keeping empty fragments, and yields exactly one (possibly empty)
fragment for a separator-free (possibly empty) string. -/
def splitSpace : List Char → List (List Char)
  | [] => [[]]
  | c :: cs =>
    if c = ' ' then [] :: splitSpace cs
    else
      match splitSpace cs with
      | [] => [[c]]
      | w :: ws => (c :: w) :: ws

/-- `content.split(" ")` (mock.py line 225). -/
def pySplitSpace (s : String) : List String :=
  (splitSpace s.data).map String.mk

/-- The branch of `_generate_mock_response` reached from `stream`: `stream`
always calls it with `json_mode=False`, where it ignores `system` and returns
the fixed placeholder sentence (mock.py lines 124-126).  The `json_mode=True`
branch is unreachable from the streaming engine and outside the spec's core
(spec section 1 excludes the key-extraction heuristics). -/
def generate_mock_response (system : String) : String :=
  "This is a mock response for testing purposes."

/-- The chunks of the fallback loop (mock.py line 228):
`chunk = word if i == 0 else " " + word`. -/
def delta_chunks : List String → List String
  | [] => []
  | w :: ws => w :: ws.map (fun x => " " ++ x)

/-- The delta events of the fallback loop (mock.py lines 229-230):
`accumulated += chunk; yield TextDeltaEvent(content=chunk, snapshot=accumulated)`. -/
def delta_events : List String → String → List StreamEvent
  | [], _ => []
  | c :: cs, acc => StreamEvent.textDelta c (acc ++ c) :: delta_events cs (acc ++ c)

/-- The final value of `accumulated` after the fallback loop. -/
def accum_all : List String → String → String
  | [], acc => acc
  | c :: cs, acc => accum_all cs (acc ++ c)

/-- The event sequence produced by the fallback branch of `stream`
(mock.py lines 222-232): word-split deltas, one `TextEndEvent(full_text=accumulated)`,
one `FinishEvent(stop_reason="mock_complete", model=self.model)`. -/
def fallback_events (model : String) (system : String) : List StreamEvent :=
  let chunks := delta_chunks (pySplitSpace (generate_mock_response system))
  delta_events chunks "" ++
    [StreamEvent.textEnd (accum_all chunks ""),
     StreamEvent.finish "mock_complete" model 0 0]

/-- One complete run of the body of `stream` (mock.py lines 198-232): append
the invocation record, then either emit the scenario at
`_call_index % len(scenarios)` and advance the index (when `self.scenarios` is
truthy), or emit the fallback sequence.  Returns the post-state and the full
emitted event list.  `max_tokens` is accepted and ignored, as in the source. -/
def MockLLMProvider.stream (p : MockLLMProvider) (messages : List Message)
    (system : String) (tools : Option (List Tool)) (max_tokens : Nat) :
    MockLLMProvider × List StreamEvent :=
  let p1 := { p with
    stream_calls := p.stream_calls ++ [{ messages := messages, system := system, tools := tools }] }
  if p1.scenarios = [] then
    (p1, fallback_events p1.model system)
  else
    ({ p1 with call_index := p1.call_index + 1 },
      p1.scenarios.getD (p1.call_index % p1.scenarios.length) [])

/-- The async-generator protocol of `stream`: `k` is the number of times the
caller advances the returned generator.  With `k = 0` the body never runs (a
Python generator executes nothing at call time), so the provider state is
untouched and no event is delivered; with `k ≥ 1` the entry mutations run (they
all precede the first `yield`) and at most `k` events are delivered. -/
def MockLLMProvider.stream_consume (p : MockLLMProvider) (messages : List Message)
    (system : String) (tools : Option (List Tool)) (max_tokens : Nat) (k : Nat) :
    MockLLMProvider × List StreamEvent :=
  if k = 0 then (p, [])
  else
    let r := p.stream messages system tools max_tokens
    (r.1, r.2.take k)

/-- The argument tuple of one `stream` call. -/
structure StreamArgs where
  messages : List Message
  system : String
  tools : Option (List Tool)
  max_tokens : Nat
deriving DecidableEq

/-- `stream` applied to a bundled argument tuple. -/
def MockLLMProvider.stream1 (p : MockLLMProvider) (a : StreamArgs) :
    MockLLMProvider × List StreamEvent :=
  p.stream a.messages a.system a.tools a.max_tokens

/-- The provider state after a sequence of completed `stream` calls. -/
def run_calls : MockLLMProvider → List StreamArgs → MockLLMProvider
  | p, [] => p
  | p, a :: rest => run_calls (p.stream1 a).1 rest

/-- The invocation record that a call with arguments `a` appends. -/
def to_record (a : StreamArgs) : StreamCall :=
  { messages := a.messages, system := a.system, tools := a.tools }

/-- `text_scenario` (mock.py lines 240-250). -/
def text_scenario (text : String) (input_tokens : Nat) (output_tokens : Nat) :
    List StreamEvent :=
  [StreamEvent.textDelta text text,
   StreamEvent.finish "stop" "mock" input_tokens output_tokens]

/-- `tool_call_scenario` (mock.py lines 253-269): an optional leading text
delta (appended only when `text` is truthy, i.e. non-empty), a tool call, and a
`FinishEvent(stop_reason="tool_calls")`. -/
def tool_call_scenario (tool_name : String) (tool_input : List (String × String))
    (tool_use_id : String) (text : String) : List StreamEvent :=
  (if text = "" then [] else [StreamEvent.textDelta text text]) ++
    [StreamEvent.toolCall tool_use_id tool_name tool_input,
     StreamEvent.finish "tool_calls" "mock" 10 5]

/-- `error_scenario` (mock.py lines 272-274). -/
def error_scenario (error : String) (recoverable : Bool) : List StreamEvent :=
  [StreamEvent.streamError error recoverable]

/-- Terminal events per spec section 3: `FinishEvent` and `StreamErrorEvent`. -/
def StreamEvent.isTerminal : StreamEvent → Bool
  | .finish _ _ _ _ => true
  | .streamError _ _ => true
  | _ => false

/-- Recognizes `StreamErrorEvent`. -/
def StreamEvent.isError : StreamEvent → Bool
  | .streamError _ _ => true
  | _ => false

/-- Recognizes `TextEndEvent`. -/
def StreamEvent.isTextEnd : StreamEvent → Bool
  | .textEnd _ => true
  | _ => false

/-- Recognizes `TextDeltaEvent`. -/
def StreamEvent.isTextDelta : StreamEvent → Bool
  | .textDelta _ _ => true
  | _ => false

/-- The terminal invariant of spec section 3: the sequence holds exactly one
terminal event (one `FinishEvent` or one `StreamErrorEvent`, never both) and
that terminal event is the last element. -/
def terminal_ok (evs : List StreamEvent) : Bool :=
  evs.countP StreamEvent.isTerminal = 1 &&
    (match evs.getLast? with
     | some e => e.isTerminal
     | none => false)

/-- Checks, walking the sequence with `acc` the concatenation of the contents
of the text deltas seen so far, that every delta's `snapshot` equals the
concatenation of the contents of the deltas up to and including it. -/
def snapshot_check (acc : String) : List StreamEvent → Bool
  | [] => true
  | .textDelta c s :: rest => (s = acc ++ c) && snapshot_check (acc ++ c) rest
  | _ :: rest => snapshot_check acc rest

/-- Checks, walking the sequence with `acc` the concatenation of the contents
of the text deltas seen so far, that every `TextEndEvent`'s `full_text` equals
the concatenation of the contents of all preceding deltas. -/
def textend_check (acc : String) : List StreamEvent → Bool
  | [] => true
  | .textDelta c _ :: rest => textend_check (acc ++ c) rest
  | .textEnd t :: rest => (t = acc) && textend_check acc rest
  | _ :: rest => textend_check acc rest

/-- A concrete argument tuple, as the test helper `_collect` passes it. -/
def argsEx : StreamArgs :=
  { messages := [[("role", "user"), ("content", "hi")]], system := "", tools := none,
    max_tokens := 4096 }

/-- A second concrete argument tuple with different contents. -/
def argsEx2 : StreamArgs :=
  { messages := [[("role", "user"), ("content", "bye")]], system := "Be helpful",
    tools := some ["search"], max_tokens := 16 }

/-- A provider with one ordinary scenario, as in the spec's concrete test of
section 8. -/
def pC1 : MockLLMProvider :=
  MockLLMProvider.init "mock-model" (some [text_scenario "hello world" 10 5])

/-- A provider whose single authored scenario holds no terminal event. -/
def pC3 : MockLLMProvider :=
  MockLLMProvider.init "mock-model" (some [[StreamEvent.textDelta "hi" "hi"]])

/-- A provider whose single authored scenario is one `TextEndEvent` with
`full_text = "x"` and no preceding deltas. -/
def pC6 : MockLLMProvider :=
  MockLLMProvider.init "mock-model" (some [[StreamEvent.textEnd "x"]])

/-- A provider whose single authored scenario is one `StreamErrorEvent`. -/
def pC7 : MockLLMProvider :=
  MockLLMProvider.init "mock-model" (some [error_scenario "Connection lost" false])

lemma stream_fst (p : MockLLMProvider) (msgs : List Message) (sys : String)
    (tools : Option (List Tool)) (mt : Nat) :
    (p.stream msgs sys tools mt).1 =
      { model := p.model, scenarios := p.scenarios,
        call_index := if p.scenarios = [] then p.call_index else p.call_index + 1,
        stream_calls :=
          p.stream_calls ++ [{ messages := msgs, system := sys, tools := tools }] } := by
  unfold MockLLMProvider.stream
  by_cases h : p.scenarios = [] <;> simp [h]

lemma stream_snd_empty (p : MockLLMProvider) (msgs : List Message) (sys : String)
    (tools : Option (List Tool)) (mt : Nat) (h : p.scenarios = []) :
    (p.stream msgs sys tools mt).2 = fallback_events p.model sys := by
  unfold MockLLMProvider.stream
  simp [h]

lemma stream_snd_nonempty (p : MockLLMProvider) (msgs : List Message) (sys : String)
    (tools : Option (List Tool)) (mt : Nat) (h : p.scenarios ≠ []) :
    (p.stream msgs sys tools mt).2 =
      p.scenarios.getD (p.call_index % p.scenarios.length) [] := by
  unfold MockLLMProvider.stream
  simp [h]

lemma run_calls_model (l : List StreamArgs) :
    ∀ p : MockLLMProvider, (run_calls p l).model = p.model := by
  induction l with
  | nil => intro p; rfl
  | cons a rest ih =>
    intro p
    rw [run_calls, ih]
    simp [MockLLMProvider.stream1, stream_fst]

lemma run_calls_scenarios (l : List StreamArgs) :
    ∀ p : MockLLMProvider, (run_calls p l).scenarios = p.scenarios := by
  induction l with
  | nil => intro p; rfl
  | cons a rest ih =>
    intro p
    rw [run_calls, ih]
    simp [MockLLMProvider.stream1, stream_fst]

lemma run_calls_index (l : List StreamArgs) :
    ∀ p : MockLLMProvider, p.scenarios ≠ [] →
      (run_calls p l).call_index = p.call_index + l.length := by
  induction l with
  | nil => intro p _; rfl
  | cons a rest ih =>
    intro p h
    rw [run_calls, ih]
    · simp [MockLLMProvider.stream1, stream_fst, h]
      omega
    · simp [MockLLMProvider.stream1, stream_fst, h]

lemma run_calls_log (l : List StreamArgs) :
    ∀ p : MockLLMProvider,
      (run_calls p l).stream_calls = p.stream_calls ++ l.map to_record := by
  induction l with
  | nil => intro p; simp [run_calls]
  | cons a rest ih =>
    intro p
    rw [run_calls, ih]
    simp [MockLLMProvider.stream1, stream_fst, to_record]

lemma fallback_events_eq (model system : String) :
    fallback_events model system =
      [StreamEvent.textDelta "This" "This",
       StreamEvent.textDelta " is" "This is",
       StreamEvent.textDelta " a" "This is a",
       StreamEvent.textDelta " mock" "This is a mock",
       StreamEvent.textDelta " response" "This is a mock response",
       StreamEvent.textDelta " for" "This is a mock response for",
       StreamEvent.textDelta " testing" "This is a mock response for testing",
       StreamEvent.textDelta " purposes." "This is a mock response for testing purposes.",
       StreamEvent.textEnd "This is a mock response for testing purposes.",
       StreamEvent.finish "mock_complete" model 0 0] := by
  rfl

/-- C9: a completed `stream` call leaves `model` and `scenarios` unchanged;
its only mutations are one append of the invocation record to `stream_calls`
and, only when the scenario store is non-empty, one increment of `call_index`
(which stays unchanged when the store is empty). -/
theorem C9_frame (p : MockLLMProvider) (msgs : List Message) (sys : String)
    (tools : Option (List Tool)) (mt : Nat) :
    (p.stream msgs sys tools mt).1.model = p.model ∧
    (p.stream msgs sys tools mt).1.scenarios = p.scenarios ∧
    (p.stream msgs sys tools mt).1.stream_calls =
      p.stream_calls ++ [{ messages := msgs, system := sys, tools := tools }] ∧
    (p.stream msgs sys tools mt).1.call_index =
      (if p.scenarios = [] then p.call_index else p.call_index + 1) := by
  rw [stream_fst]
  exact ⟨rfl, rfl, rfl, rfl⟩

/-- C8: after any sequence of completed `stream` calls the Call Ledger equals,
in insertion order, the invocation records of exactly those calls (so its
length is the number of completed calls), and the last record after any call
holds exactly that call's `messages`, `system` and `tools`. -/
theorem C8_ledger (model : String) (scenarios : Option (List (List StreamEvent)))
    (calls : List StreamArgs) :
    (run_calls (MockLLMProvider.init model scenarios) calls).stream_calls =
      calls.map to_record ∧
    (run_calls (MockLLMProvider.init model scenarios) calls).stream_calls.length =
      calls.length ∧
    (∀ (p : MockLLMProvider) (a : StreamArgs),
      ((p.stream1 a).1).stream_calls.getLast? = some (to_record a)) := by
  refine ⟨?_, ?_, ?_⟩
  · rw [run_calls_log]
    rfl
  · rw [run_calls_log]
    simp [MockLLMProvider.init]
  · intro p a
    simp [MockLLMProvider.stream1, stream_fst, to_record]

/-- C2: on an engine whose scenario store is the non-empty list `ss`, the
`stream` call made after `N` prior completed calls emits exactly
`ss[N % ss.length]`, verbatim (so with scenarios `[A, B]` calls 1,2,3,4 yield
`A,B,A,B`, and with a single scenario every call yields it). -/
theorem C2_cycling (model : String) (ss : List (List StreamEvent)) (h : ss ≠ [])
    (calls : List StreamArgs) (a : StreamArgs) :
    ((run_calls (MockLLMProvider.init model (some ss)) calls).stream1 a).2 =
      ss.getD (calls.length % ss.length) [] := by
  have hsc : (run_calls (MockLLMProvider.init model (some ss)) calls).scenarios = ss := by
    rw [run_calls_scenarios]
    rfl
  have hidx : (run_calls (MockLLMProvider.init model (some ss)) calls).call_index =
      calls.length := by
    rw [run_calls_index]
    · simp [MockLLMProvider.init]
    · simpa [MockLLMProvider.init] using h
  rw [MockLLMProvider.stream1, stream_snd_nonempty _ _ _ _ _ (by rw [hsc]; exact h),
    hsc, hidx]

/-- C2 witness: with scenarios `[A, B]` the call after two completed calls
emits scenario `A` again (`2 % 2 = 0`). -/
theorem C2_cycling_witness :
    ((run_calls
        (MockLLMProvider.init "mock-model"
          (some [text_scenario "A" 10 5, text_scenario "B" 10 5]))
        [argsEx, argsEx2]).stream1 argsEx).2 =
      [text_scenario "A" 10 5, text_scenario "B" 10 5].getD
        ([argsEx, argsEx2].length % [text_scenario "A" 10 5, text_scenario "B" 10 5].length)
        [] :=
  C2_cycling "mock-model" [text_scenario "A" 10 5, text_scenario "B" 10 5]
    (by decide) [argsEx, argsEx2] argsEx

/-- C10: on an engine with zero scenarios the emitted sequence is independent
of every call argument: two calls with arbitrary (possibly different)
`messages`, `system`, `tools` and `max_tokens` — also back-to-back on the same
engine — emit identical event sequences. -/
theorem C10_independent (p : MockLLMProvider) (h : p.scenarios = []) (a b : StreamArgs) :
    (p.stream1 a).2 = (p.stream1 b).2 ∧
    (((p.stream1 a).1).stream1 b).2 = (p.stream1 a).2 := by
  have h2 : ((p.stream1 a).1).scenarios = p.scenarios := by
    simp [MockLLMProvider.stream1, stream_fst]
  have hm : ((p.stream1 a).1).model = p.model := by
    simp [MockLLMProvider.stream1, stream_fst]
  constructor
  · simp only [MockLLMProvider.stream1]
    rw [stream_snd_empty _ _ _ _ _ h, stream_snd_empty _ _ _ _ _ h,
      fallback_events_eq, fallback_events_eq]
  · simp only [MockLLMProvider.stream1] at h2 hm ⊢
    rw [stream_snd_empty _ _ _ _ _ (h2.trans h), stream_snd_empty _ _ _ _ _ h, hm,
      fallback_events_eq, fallback_events_eq]

/-- C10 witness: on a fresh scenario-free engine, two calls with different
messages, system, tools and max_tokens emit the same sequences. -/
theorem C10_independent_witness :
    ((MockLLMProvider.init "m" none).stream1 argsEx).2 =
      ((MockLLMProvider.init "m" none).stream1 argsEx2).2 ∧
    ((((MockLLMProvider.init "m" none).stream1 argsEx).1).stream1 argsEx2).2 =
      ((MockLLMProvider.init "m" none).stream1 argsEx).2 :=
  C10_independent (MockLLMProvider.init "m" none) rfl argsEx argsEx2

/-- C4: with zero scenarios, `stream` emits exactly the fallback sequence (the
fallback is entered with `json_mode=False`): the word-split deltas of the fixed
placeholder sentence — first word verbatim, every later fragment a single
leading space plus the next word — then exactly one `TextEndEvent` and exactly
one `FinishEvent` with `stop_reason="mock_complete"`; in particular the
sequence is non-empty with at least one delta, one end and one finish. -/
theorem C4_fallback (p : MockLLMProvider) (msgs : List Message) (sys : String)
    (tools : Option (List Tool)) (mt : Nat) (h : p.scenarios = []) :
    (p.stream msgs sys tools mt).2 = fallback_events p.model sys ∧
    (p.stream msgs sys tools mt).2 =
      [StreamEvent.textDelta "This" "This",
       StreamEvent.textDelta " is" "This is",
       StreamEvent.textDelta " a" "This is a",
       StreamEvent.textDelta " mock" "This is a mock",
       StreamEvent.textDelta " response" "This is a mock response",
       StreamEvent.textDelta " for" "This is a mock response for",
       StreamEvent.textDelta " testing" "This is a mock response for testing",
       StreamEvent.textDelta " purposes." "This is a mock response for testing purposes.",
       StreamEvent.textEnd "This is a mock response for testing purposes.",
       StreamEvent.finish "mock_complete" p.model 0 0] := by
  refine ⟨stream_snd_empty p msgs sys tools mt h, ?_⟩
  rw [stream_snd_empty p msgs sys tools mt h, fallback_events_eq]

/-- C4 witness: the fallback sequence of a fresh scenario-free engine. -/
theorem C4_fallback_witness :
    ((MockLLMProvider.init "mock-model" none).stream argsEx.messages argsEx.system
        argsEx.tools argsEx.max_tokens).2 =
      fallback_events (MockLLMProvider.init "mock-model" none).model argsEx.system ∧
    ((MockLLMProvider.init "mock-model" none).stream argsEx.messages argsEx.system
        argsEx.tools argsEx.max_tokens).2 =
      [StreamEvent.textDelta "This" "This",
       StreamEvent.textDelta " is" "This is",
       StreamEvent.textDelta " a" "This is a",
       StreamEvent.textDelta " mock" "This is a mock",
       StreamEvent.textDelta " response" "This is a mock response",
       StreamEvent.textDelta " for" "This is a mock response for",
       StreamEvent.textDelta " testing" "This is a mock response for testing",
       StreamEvent.textDelta " purposes." "This is a mock response for testing purposes.",
       StreamEvent.textEnd "This is a mock response for testing purposes.",
       StreamEvent.finish "mock_complete" (MockLLMProvider.init "mock-model" none).model 0 0] :=
  C4_fallback (MockLLMProvider.init "mock-model" none) argsEx.messages argsEx.system
    argsEx.tools argsEx.max_tokens rfl

/-- C5: for every fallback-generated sequence, every `TextDeltaEvent`'s
`snapshot` equals the concatenation of the `content` fields of the deltas up
to and including it, in emission order (`snapshot_check` walks the sequence
carrying that concatenation). -/
theorem C5_snapshots (model system : String) :
    snapshot_check "" (fallback_events model system) = true := by
  rw [fallback_events_eq]
  rfl

lemma terminal_ok_tool_call (tn : String) (ti : List (String × String)) (id txt : String) :
    terminal_ok (tool_call_scenario tn ti id txt) = true := by
  by_cases htxt : txt = ""
  · unfold tool_call_scenario
    rw [if_pos htxt]
    rfl
  · unfold tool_call_scenario
    rw [if_neg htxt]
    rfl

/-- C1 counterexample: `stream` is an async generator, so calling it runs no
body code; a caller that consumes zero events of the returned sequence gets no
ledger append and no index advance, against "synchronously at call entry ...
even when the caller consumes zero events". -/
theorem C1_counterexample :
    (pC1.stream_consume argsEx.messages argsEx.system argsEx.tools argsEx.max_tokens 0).1
        = pC1 ∧
    ¬ (pC1.stream_consume argsEx.messages argsEx.system argsEx.tools
          argsEx.max_tokens 0).1.stream_calls.length = 1 ∧
    ¬ (pC1.stream_consume argsEx.messages argsEx.system argsEx.tools
          argsEx.max_tokens 0).1.call_index = pC1.call_index + 1 := by
  decide

/-- C1 amended: the Invocation Record append and the scenario-index advance
happen exactly once per call, before any event is produced, as soon as the
caller first advances the returned generator (requests at least one event);
a call whose returned generator is never advanced performs neither. -/
theorem C1_entry (p : MockLLMProvider) (msgs : List Message) (sys : String)
    (tools : Option (List Tool)) (mt k : Nat) (h : 1 ≤ k) :
    (p.stream_consume msgs sys tools mt k).1 = (p.stream msgs sys tools mt).1 ∧
    (p.stream_consume msgs sys tools mt k).1.stream_calls =
      p.stream_calls ++ [{ messages := msgs, system := sys, tools := tools }] ∧
    (p.stream_consume msgs sys tools mt k).1.call_index =
      (if p.scenarios = [] then p.call_index else p.call_index + 1) ∧
    (p.stream_consume msgs sys tools mt 0).1 = p := by
  have hk : ¬ k = 0 := by omega
  have h1 : (p.stream_consume msgs sys tools mt k).1 = (p.stream msgs sys tools mt).1 := by
    unfold MockLLMProvider.stream_consume
    rw [if_neg hk]
  refine ⟨h1, ?_, ?_, rfl⟩
  · rw [h1, stream_fst]
  · rw [h1, stream_fst]

/-- C1 witness: a caller that requests one event triggers exactly the entry
mutations of the full call. -/
theorem C1_entry_witness :
    (pC1.stream_consume argsEx.messages argsEx.system argsEx.tools
        argsEx.max_tokens 1).1 =
      (pC1.stream argsEx.messages argsEx.system argsEx.tools argsEx.max_tokens).1 :=
  (C1_entry pC1 argsEx.messages argsEx.system argsEx.tools argsEx.max_tokens 1
    (by decide)).1

/-- C3 counterexample: a scenario authored without any terminal event is
re-emitted verbatim, so that invocation's sequence holds no `FinishEvent` and
no `StreamErrorEvent`, against "exactly one terminal event per invocation". -/
theorem C3_counterexample :
    terminal_ok (pC3.stream argsEx.messages argsEx.system argsEx.tools
        argsEx.max_tokens).2 = false := by
  decide

/-- C3 amended: every fallback invocation emits exactly one terminal event
(one `FinishEvent`, never a `StreamErrorEvent` too) as its last element;
a scenario-backed invocation re-emits the selected scenario verbatim, so its
sequence satisfies the terminal invariant exactly when the authored scenario
does — as the sequences of all three scenario builders do. -/
theorem C3_terminal (model system : String) (p : MockLLMProvider)
    (msgs : List Message) (sys : String) (tools : Option (List Tool)) (mt : Nat) :
    terminal_ok (fallback_events model system) = true ∧
    (p.scenarios ≠ [] →
      (p.stream msgs sys tools mt).2 =
        p.scenarios.getD (p.call_index % p.scenarios.length) []) ∧
    (∀ (text : String) (it ot : Nat), terminal_ok (text_scenario text it ot) = true) ∧
    (∀ (tn : String) (ti : List (String × String)) (id txt : String),
      terminal_ok (tool_call_scenario tn ti id txt) = true) ∧
    (∀ (e : String) (r : Bool), terminal_ok (error_scenario e r) = true) := by
  refine ⟨?_, stream_snd_nonempty p msgs sys tools mt, ?_, ?_, ?_⟩
  · rw [fallback_events_eq]
    rfl
  · intro text it ot
    rfl
  · intro tn ti id txt
    exact terminal_ok_tool_call tn ti id txt
  · intro e r
    rfl

/-- C3 witness: the scenario-backed branch of the amended statement at a
concrete provider holding one error scenario. -/
theorem C3_terminal_witness :
    (pC7.stream argsEx.messages argsEx.system argsEx.tools argsEx.max_tokens).2 =
      pC7.scenarios.getD (pC7.call_index % pC7.scenarios.length) [] :=
  (C3_terminal "m" "" pC7 argsEx.messages argsEx.system argsEx.tools
    argsEx.max_tokens).2.1 (by decide)

/-- C6 counterexample: a scenario whose authored `TextEndEvent` carries
`full_text = "x"` with no preceding delta is re-emitted verbatim, violating
"full_text equals the concatenation of the preceding delta contents". -/
theorem C6_counterexample :
    textend_check "" (pC6.stream argsEx.messages argsEx.system argsEx.tools
        argsEx.max_tokens).2 = false := by
  decide

/-- C6 amended: in every fallback invocation the (single) `TextEndEvent`'s
`full_text` equals the concatenation of the contents of all preceding deltas;
a scenario-backed invocation re-emits the selected scenario verbatim, so it
satisfies the reconciliation invariant exactly when the authored scenario
does. -/
theorem C6_textend (model system : String) (p : MockLLMProvider)
    (msgs : List Message) (sys : String) (tools : Option (List Tool)) (mt : Nat) :
    textend_check "" (fallback_events model system) = true ∧
    (fallback_events model system).countP StreamEvent.isTextEnd = 1 ∧
    (p.scenarios ≠ [] →
      (p.stream msgs sys tools mt).2 =
        p.scenarios.getD (p.call_index % p.scenarios.length) []) := by
  refine ⟨?_, ?_, stream_snd_nonempty p msgs sys tools mt⟩
  · rw [fallback_events_eq]
    rfl
  · rw [fallback_events_eq]
    rfl

/-- C6 witness: the scenario-backed branch of the amended statement at a
concrete provider whose scenario is a lone `TextEndEvent`. -/
theorem C6_textend_witness :
    (pC6.stream argsEx.messages argsEx.system argsEx.tools argsEx.max_tokens).2 =
      pC6.scenarios.getD (pC6.call_index % pC6.scenarios.length) [] :=
  (C6_textend "m" "" pC6 argsEx.messages argsEx.system argsEx.tools
    argsEx.max_tokens).2.2 (by decide)

/-- C7: `stream` raises nothing across its boundary (it is embedded as a total
function): an empty scenario store silently routes to the fallback, whose
sequence holds no `StreamErrorEvent`, and every `StreamErrorEvent` of an
emitted sequence is literally an element of the selected scenario. -/
theorem C7_errors (p : MockLLMProvider) (msgs : List Message) (sys : String)
    (tools : Option (List Tool)) (mt : Nat) :
    (p.scenarios = [] →
      (p.stream msgs sys tools mt).2 = fallback_events p.model sys ∧
      (p.stream msgs sys tools mt).2.countP StreamEvent.isError = 0) ∧
    (∀ e ∈ (p.stream msgs sys tools mt).2, e.isError = true →
      p.scenarios ≠ [] ∧
      e ∈ p.scenarios.getD (p.call_index % p.scenarios.length) []) := by
  constructor
  · intro h
    refine ⟨stream_snd_empty p msgs sys tools mt h, ?_⟩
    rw [stream_snd_empty p msgs sys tools mt h, fallback_events_eq]
    rfl
  · intro e he herr
    by_cases h : p.scenarios = []
    · exfalso
      have h0 : (fallback_events p.model sys).countP StreamEvent.isError = 0 := by
        rw [fallback_events_eq]
        rfl
      rw [stream_snd_empty p msgs sys tools mt h] at he
      exact (List.countP_eq_zero.mp h0) e he herr
    · refine ⟨h, ?_⟩
      rwa [stream_snd_nonempty p msgs sys tools mt h] at he

/-- C7 witness: the authored error event of a concrete error scenario is
traced back to the selected scenario. -/
theorem C7_errors_witness :
    pC7.scenarios ≠ [] ∧
    StreamEvent.streamError "Connection lost" false ∈
      pC7.scenarios.getD (pC7.call_index % pC7.scenarios.length) [] :=
  (C7_errors pC7 argsEx.messages argsEx.system argsEx.tools argsEx.max_tokens).2
    (StreamEvent.streamError "Connection lost" false) (by decide) (by decide)
